import Mathlib

/-!
Shallow embedding of vimeo_cleaner.py (class VimeoManager) and proofs about
the claims of its specification.

Modelling conventions:
- The local filesystem is an association list from paths to abstract file
  contents (a Nat standing for the bytes written).
- Network and API behaviour is given by oracle functions in an environment:
  a page oracle for the listing endpoint, a response oracle for streaming
  downloads, and a response oracle for DELETE requests.
- Python exceptions in per-item processing are modelled by Option-valued
  field access and parsing: a missing key or a malformed timestamp makes the
  corresponding accessor return none, which the embedding routes to the same
  outcome as the except-branch of the source (errors incremented, item
  abandoned, run continues).
- Calls to download_video and delete_video are recorded as events so that
  temporal claims (ordering of downloads and deletions) can be stated on
  the trace of a run.
-/

namespace VimeoCleaner

/-- Abstract filesystem: a list of (path, content) pairs, most recent write
first. Content is an abstract Nat identifying the bytes of the file. -/
abbrev FS := List (String × Nat)

/-- Lookup of a path in the filesystem, mirroring os.path semantics on a
flat directory. -/
def fsLookup : FS → String → Option Nat
  | [], _ => none
  | (q, c) :: rest, p => if q = p then some c else fsLookup rest p

/-- Model of os.path.exists on the abstract filesystem. -/
def fsExists (fs : FS) (p : String) : Bool :=
  (fsLookup fs p).isSome

/-- Model of writing a file at a path (open followed by the write loop). -/
def fsWrite (fs : FS) (p : String) (c : Nat) : FS :=
  (p, c) :: fs

/-- Model of os.remove. -/
def fsRemove (fs : FS) (p : String) : FS :=
  fs.filter (fun e => e.1 != p)

/-- One listing item as read from the JSON response. Each field that the
source accesses with a raising subscript is Option-valued: none models the
key being absent (KeyError in the source). The download field holds the
link entry of each element of the download array; an element that lacks the
link key is none. -/
structure Video where
  uri : Option String
  name : Option String
  created_time : Option String
  download : Option (List (Option String))
deriving DecidableEq

/-- Outcome of one streaming GET of a download link (one session.get call,
retries of the transport layer already folded in). connFail is an exception
before the local file is opened; streamFail is an exception after part of
the body was written; ok is a completed transfer of the given content. -/
inductive NetResult where
  | connFail : NetResult
  | streamFail : Nat → NetResult
  | ok : Nat → NetResult
deriving DecidableEq

/-- Response to one DELETE request: an HTTP status code, or a transport
exception raised by the client call. -/
inductive DeleteResp where
  | status : Nat → DeleteResp
  | exn : DeleteResp
deriving DecidableEq

/-- Observable events of a run, used for the temporal claims. -/
inductive Event where
  | downloadCall : String → String → Bool → Bool → Event
  | deleteCall : String → Bool → Event
  | logListError : Nat → Event
deriving DecidableEq

/-- True exactly on deleteCall events. -/
def is_delete_event : Event → Bool
  | .deleteCall _ _ => true
  | _ => false

/-- True exactly on downloadCall events whose result was success. -/
def is_download_success : Event → Bool
  | .downloadCall _ _ ok _ => ok
  | _ => false

/-- Environment of a run: configured download directory, target year, and
the oracles for listing pages, download links and DELETE requests. -/
structure Env where
  download_dir : String
  year : Nat
  pages : Nat → Option (List Video)
  net : String → NetResult
  deleteResp : String → DeleteResp

/-- Model of the digit value of a decimal character. -/
def digitVal (c : Char) : Nat := c.toNat - 48

/-- Value of a two-digit group. -/
def twoVal (a b : Char) : Nat := digitVal a * 10 + digitVal b

/-- Model of the replace of the suffix Z by +00:00 applied to the created
time before parsing (source line 142), on the character list. Python
str.replace substitutes every occurrence. -/
def replaceZ : List Char → List Char
  | [] => []
  | c :: rest =>
    if c = 'Z' then '+' :: '0' :: '0' :: ':' :: '0' :: '0' :: replaceZ rest
    else c :: replaceZ rest

/-- Gregorian leap year test, as datetime uses. -/
def isLeap (y : Nat) : Bool :=
  (y % 4 == 0 && y % 100 != 0) || y % 400 == 0

/-- Days in a month, as datetime validates. -/
def daysInMonth (y m : Nat) : Nat :=
  if m = 2 then (if isLeap y then 29 else 28)
  else if m = 4 || m = 6 || m = 9 || m = 11 then 30
  else 31

/-- Parse a two-digit group, returning its value and the remaining input. -/
def parseTwo : List Char → Option (Nat × List Char)
  | a :: b :: rest =>
    if a.isDigit && b.isDigit then some (twoVal a b, rest) else none
  | _ => none

/-- Consume a run of decimal digits. -/
def skipDigits : List Char → List Char
  | [] => []
  | c :: rest => if c.isDigit then skipDigits rest else c :: rest

/-- Validity of an optional UTC-offset suffix sign HH:MM, as
datetime.fromisoformat accepts. -/
def validOffset : List Char → Bool
  | [] => true
  | sign :: rest =>
    if sign = '+' || sign = '-' then
      match parseTwo rest with
      | some (hh, ':' :: rest2) =>
        match parseTwo rest2 with
        | some (mm, []) => decide (hh < 24) && decide (mm < 60)
        | _ => false
      | _ => false
    else false

/-- Validity of an optional fractional-seconds group followed by an
optional offset. -/
def validFracOffset : List Char → Bool
  | '.' :: rest =>
    match rest with
    | c :: _ => if c.isDigit then validOffset (skipDigits rest) else false
    | [] => false
  | cs => validOffset cs

/-- Validity of the optional time-of-day part of an ISO-8601 string:
empty, or a one-character separator followed by HH with optional :MM,
:SS, fraction and offset. -/
def validTime : List Char → Bool
  | [] => true
  | _ :: rest =>
    match parseTwo rest with
    | none => false
    | some (hh, rest2) =>
      decide (hh < 24) &&
      match rest2 with
      | ':' :: rest3 =>
        match parseTwo rest3 with
        | none => false
        | some (mm, rest4) =>
          decide (mm < 60) &&
          match rest4 with
          | ':' :: rest5 =>
            match parseTwo rest5 with
            | none => false
            | some (ss, rest6) => decide (ss < 60) && validFracOffset rest6
          | rest5 => validOffset rest5
      | rest3 => validOffset rest3

/-- Model of the year extracted by
datetime.fromisoformat(created_time.replace(Z, +00:00)).year on source
line 142: none models the ValueError raised on a malformed string, some y
the parsed year. The input is validated as YYYY-MM-DD with calendar-valid
month and day, optionally followed by a separator and a valid time of day
with optional fraction and offset. -/
def parse_iso_year (s : String) : Option Nat :=
  match replaceZ s.toList with
  | y1 :: y2 :: y3 :: y4 :: '-' :: m1 :: m2 :: '-' :: d1 :: d2 :: rest =>
    if y1.isDigit && y2.isDigit && y3.isDigit && y4.isDigit &&
        m1.isDigit && m2.isDigit && d1.isDigit && d2.isDigit then
      let y := twoVal y1 y2 * 100 + twoVal y3 y4
      let m := twoVal m1 m2
      let d := twoVal d1 d2
      if decide (1 ≤ y) && decide (1 ≤ m) && decide (m ≤ 12) &&
          decide (1 ≤ d) && decide (d ≤ daysInMonth y m) && validTime rest
      then some y else none
    else none
  | _ => none

/-- Model of source line 147: video.get of the name key with default
unnamed, then replace of the path separator by an underscore. The default
applies only when the key is absent (none); a present empty string stays
empty. -/
def sanitize_name (name : Option String) : String :=
  String.mk ((name.getD "unnamed").toList.map
    (fun c => if c = '/' then '_' else c))

/-- Model of source line 87: the target local path
os.path.join(download_dir, video_name + extension). -/
def target_path (download_dir video_name : String) : String :=
  download_dir ++ "/" ++ video_name ++ ".mp4"

/-- Model of _get_download_link (source lines 77 to 83): the link field of
the first element of the download array; a missing download key, an empty
array, or a first element without a link key all yield none (the
KeyError or IndexError branch). -/
def get_download_link (video : Video) : Option String :=
  match video.download with
  | none => none
  | some [] => none
  | some (entry :: _) => entry

/-- Result of one download_video call: the returned Bool, the filesystem
after the call, and whether a network transfer was performed (false when
the skip rule returned early). -/
structure DlResult where
  ok : Bool
  fs : FS
  transferred : Bool
deriving DecidableEq

/-- Model of download_video (source lines 85 to 114). If a file exists at
the target path, return True with no transfer. Otherwise stream the link:
on a completed transfer the file holds the full content; on an exception
the except-branch removes the file when it exists (a partially written
file is removed, a connection failure before the open leaves nothing). -/
def download_video (download_dir : String) (net : String → NetResult)
    (fs : FS) (download_link video_name : String) : DlResult :=
  let file_path := target_path download_dir video_name
  if fsExists fs file_path then
    ⟨true, fs, false⟩
  else
    match net download_link with
    | .ok content => ⟨true, fsWrite fs file_path content, true⟩
    | .streamFail part =>
      let fs1 := fsWrite fs file_path part
      ⟨false, if fsExists fs1 file_path then fsRemove fs1 file_path else fs1,
        true⟩
    | .connFail =>
      ⟨false, if fsExists fs file_path then fsRemove fs file_path else fs,
        true⟩

/-- Model of delete_video (source lines 116 to 127): one DELETE request is
issued; the call returns True exactly when the response status is 204, and
False on any other status or on an exception. The single deleteCall event
records the request and its outcome. -/
def delete_video (deleteResp : String → DeleteResp) (video_uri : String) :
    Bool × List Event :=
  match deleteResp video_uri with
  | .status code =>
    if code = 204 then (true, [.deleteCall video_uri true])
    else (false, [.deleteCall video_uri false])
  | .exn => (false, [.deleteCall video_uri false])

/-- Outcome of processing a single listed item: the deltas applied to the
processed and errors counters, the filesystem after the item, and the
events emitted for the item. -/
structure ItemResult where
  dProcessed : Nat
  dErrors : Nat
  fs : FS
  events : List Event
deriving DecidableEq

/-- Model of the per-item body of process_videos (source lines 140 to 164),
with the enclosing try and except: a missing created_time key, a malformed
timestamp, or a missing uri key raise and are caught at item level with
errors incremented by one. A creation year different from the target year
skips the item silently. The check on source line 150 is a falsy test, so
a missing download link and a present empty-string link both increment
errors. An eligible item is downloaded; on success the remote item is
deleted, and the delete outcome decides which counter is incremented. -/
def process_item (env : Env) (fs : FS) (video : Video) : ItemResult :=
  match video.created_time with
  | none => ⟨0, 1, fs, []⟩
  | some ts =>
    match parse_iso_year ts with
    | none => ⟨0, 1, fs, []⟩
    | some y =>
      if y ≠ env.year then ⟨0, 0, fs, []⟩
      else
        match video.uri with
        | none => ⟨0, 1, fs, []⟩
        | some video_uri =>
          let video_name := sanitize_name video.name
          match get_download_link video with
          | none => ⟨0, 1, fs, []⟩
          | some download_link =>
            if download_link = "" then ⟨0, 1, fs, []⟩
            else
            let dl := download_video env.download_dir env.net fs
              download_link video_name
            let dlEvent :=
              Event.downloadCall download_link video_name dl.ok dl.transferred
            if dl.ok then
              let del := delete_video env.deleteResp video_uri
              if del.1 then ⟨1, 0, dl.fs, dlEvent :: del.2⟩
              else ⟨0, 1, dl.fs, dlEvent :: del.2⟩
            else ⟨0, 1, dl.fs, [dlEvent]⟩

/-- Running state of process_videos: the two counters, the filesystem and
the event trace. -/
structure RunState where
  processed : Nat
  errors : Nat
  fs : FS
  events : List Event
deriving DecidableEq

/-- Model of the inner for-loop of process_videos over the items of one
page, in page order. -/
def process_page (env : Env) (s : RunState) : List Video → RunState
  | [] => s
  | video :: rest =>
    let r := process_item env s.fs video
    process_page env
      ⟨s.processed + r.dProcessed, s.errors + r.dErrors, r.fs,
        s.events ++ r.events⟩ rest

/-- Model of the while-loop of process_videos (source lines 135 to 166)
with explicit fuel for termination. A listing failure (_get_videos caught
an exception, logged an error and returned None) and an empty page both
break the loop, since both are falsy in the source; only the failure
leaves an error-log event. A non-empty page is processed and the loop
advances to the next page number. -/
def process_videos_loop (env : Env) : Nat → Nat → RunState → RunState
  | 0, _, s => s
  | fuel + 1, page, s =>
    match env.pages page with
    | none => { s with events := s.events ++ [Event.logListError page] }
    | some [] => s
    | some (v :: vs) =>
      process_videos_loop env fuel (page + 1)
        (process_page env s (v :: vs))

/-- Model of process_videos started at page 1 with zeroed counters over an
initial filesystem. -/
def process_videos (env : Env) (fuel : Nat) (fs0 : FS) : RunState :=
  process_videos_loop env fuel 1 ⟨0, 0, fs0, []⟩

/-- Removing a path removes every binding of that path. -/
theorem fsLookup_fsRemove (fs : FS) (p : String) :
    fsLookup (fsRemove fs p) p = none := by
  induction fs with
  | nil => rfl
  | cons e rest ih =>
    by_cases h : e.1 = p
    · simpa [fsRemove, List.filter_cons, h] using ih
    · simpa [fsRemove, List.filter_cons, h, fsLookup] using ih

/-- Removing one path does not change the binding of another. -/
theorem fsLookup_fsRemove_ne (fs : FS) (q p : String) (h : q ≠ p) :
    fsLookup (fsRemove fs q) p = fsLookup fs p := by
  induction fs with
  | nil => rfl
  | cons e rest ih =>
    by_cases he : e.1 = q
    · rw [fsRemove, List.filter_cons] at *
      simp only [he, bne_self_eq_false, Bool.false_eq_true, if_false]
      rw [fsLookup, if_neg (he ▸ h)]
      exact ih
    · rw [fsRemove, List.filter_cons] at *
      simp only [bne_iff_ne, ne_eq, he, not_false_eq_true, if_true]
      rw [fsLookup, fsLookup]
      by_cases hp : e.1 = p
      · simp [hp]
      · simp only [hp, if_false]
        exact ih

/-- Writing one path does not change the binding of another. -/
theorem fsLookup_fsWrite_ne (fs : FS) (q p : String) (c : Nat) (h : q ≠ p) :
    fsLookup (fsWrite fs q c) p = fsLookup fs p := by
  simp [fsWrite, fsLookup, h]

/-- A written path is present. -/
theorem fsExists_fsWrite_self (fs : FS) (p : String) (c : Nat) :
    fsExists (fsWrite fs p c) p = true := by
  simp [fsExists, fsWrite, fsLookup]

/-- A path that does not exist has no binding. -/
theorem fsLookup_eq_none_of_not_exists (fs : FS) (p : String)
    (h : fsExists fs p = false) : fsLookup fs p = none := by
  cases hl : fsLookup fs p with
  | none => rfl
  | some c => rw [fsExists, hl] at h; simp at h

/-- A successful download_video call leaves a file at the target path. -/
theorem download_ok_exists (download_dir : String) (net : String → NetResult)
    (fs : FS) (download_link video_name : String)
    (h : (download_video download_dir net fs download_link video_name).ok
      = true) :
    fsExists (download_video download_dir net fs download_link video_name).fs
      (target_path download_dir video_name) = true := by
  rw [download_video] at *
  by_cases he : fsExists fs (target_path download_dir video_name) = true
  · simp [he]
  · rw [Bool.not_eq_true] at he
    cases hn : net download_link with
    | ok c => simp [he, hn, fsExists_fsWrite_self]
    | streamFail part => simp [he, hn] at h
    | connFail => simp [he, hn] at h

/-- A download_video call touches no path other than its target path, which
depends only on the download directory and the sanitized name, not on the
download link. -/
theorem download_frame (download_dir : String) (net : String → NetResult)
    (fs : FS) (download_link video_name p : String)
    (h : p ≠ target_path download_dir video_name) :
    fsLookup (download_video download_dir net fs download_link video_name).fs p
      = fsLookup fs p := by
  rw [download_video]
  by_cases he : fsExists fs (target_path download_dir video_name) = true
  · simp [he]
  · rw [Bool.not_eq_true] at he
    cases hn : net download_link with
    | ok c =>
      simp only [he, hn, Bool.false_eq_true, if_false]
      exact fsLookup_fsWrite_ne fs _ p c (Ne.symm h)
    | streamFail part =>
      simp only [he, hn, Bool.false_eq_true, if_false,
        fsExists_fsWrite_self, if_true]
      rw [fsLookup_fsRemove_ne _ _ _ (Ne.symm h)]
      exact fsLookup_fsWrite_ne fs _ p part (Ne.symm h)
    | connFail =>
      simp [he, hn]

/-- C2: if no file existed at the target path before the call and the
download fails, then after the call no file exists at the target path:
a partially written file is removed and a connection failure creates
nothing. -/
theorem failed_download_leaves_no_file (download_dir : String)
    (net : String → NetResult) (fs : FS) (download_link video_name : String)
    (hne : fsExists fs (target_path download_dir video_name) = false)
    (hfail : (download_video download_dir net fs download_link video_name).ok
      = false) :
    fsLookup (download_video download_dir net fs download_link video_name).fs
      (target_path download_dir video_name) = none := by
  rw [download_video] at *
  cases hn : net download_link with
  | ok c => simp [hne, hn] at hfail
  | streamFail part =>
    simp only [hne, hn, Bool.false_eq_true, if_false,
      fsExists_fsWrite_self, if_true]
    exact fsLookup_fsRemove _ _
  | connFail =>
    simp only [hne, hn, Bool.false_eq_true, if_false]
    exact fsLookup_eq_none_of_not_exists fs _ hne

/-- Witness for C2 at a concrete failing download over an empty
filesystem. -/
theorem failed_download_leaves_no_file_witness :
    fsLookup (download_video "downloads" (fun _ => NetResult.streamFail 3) []
      "lnk" "vid").fs (target_path "downloads" "vid") = none :=
  failed_download_leaves_no_file "downloads" (fun _ => NetResult.streamFail 3)
    [] "lnk" "vid" rfl rfl

/-- C3: the skip rule. A call whose target path already holds a file
returns success immediately with no transfer and an unchanged filesystem;
after a successful first call, a second call with the same target path
performs no transfer at all and returns success; hence across two
successive calls with the same target path the network transfer is
completed at most once. -/
theorem skip_rule_idempotence (download_dir : String)
    (net1 net2 : String → NetResult) (fs : FS)
    (link1 link2 video_name : String) :
    (fsExists fs (target_path download_dir video_name) = true →
      download_video download_dir net1 fs link1 video_name
        = ⟨true, fs, false⟩) ∧
    ((download_video download_dir net1 fs link1 video_name).ok = true →
      download_video download_dir net2
          (download_video download_dir net1 fs link1 video_name).fs
          link2 video_name
        = ⟨true, (download_video download_dir net1 fs link1 video_name).fs,
            false⟩) ∧
    ¬((download_video download_dir net1 fs link1 video_name).ok = true ∧
      (download_video download_dir net2
        (download_video download_dir net1 fs link1 video_name).fs
        link2 video_name).transferred = true) := by
  have skip : ∀ (net : String → NetResult) (link : String) (fs1 : FS),
      fsExists fs1 (target_path download_dir video_name) = true →
      download_video download_dir net fs1 link video_name
        = ⟨true, fs1, false⟩ := by
    intro net link fs1 h
    rw [download_video]
    simp [h]
  refine ⟨skip net1 link1 fs, ?_, ?_⟩
  · intro hok
    exact skip net2 link2 _
      (download_ok_exists download_dir net1 fs link1 video_name hok)
  · rintro ⟨hok, htr⟩
    rw [skip net2 link2 _
      (download_ok_exists download_dir net1 fs link1 video_name hok)] at htr
    simp at htr

/-- Witness for C3: with a file already present at the target path, both
parts of the skip-rule theorem hold at a concrete input. -/
theorem skip_rule_idempotence_witness :
    download_video "downloads" (fun _ => NetResult.ok 1)
      [("downloads/vid.mp4", 5)] "l1" "vid"
      = ⟨true, [("downloads/vid.mp4", 5)], false⟩ :=
  (skip_rule_idempotence "downloads" (fun _ => NetResult.ok 1)
    (fun _ => NetResult.ok 2) [("downloads/vid.mp4", 5)] "l1" "l2" "vid").1
    (by decide)

/-- C7: delete_video returns success exactly when the API responds with
status 204; any other status or an exception yields failure without
propagating; and exactly one DELETE request is issued per call. -/
theorem delete_video_spec (deleteResp : String → DeleteResp)
    (video_uri : String) :
    ((delete_video deleteResp video_uri).1 = true ↔
      deleteResp video_uri = .status 204) ∧
    (delete_video deleteResp video_uri).2 =
      [Event.deleteCall video_uri (delete_video deleteResp video_uri).1] := by
  cases h : deleteResp video_uri with
  | status code =>
    by_cases hc : code = 204
    · subst hc; simp [delete_video, h]
    · simp [delete_video, h, hc]
  | exn => simp [delete_video, h]

/-- Witness for C7 at concrete responses: a 204 response succeeds. -/
theorem delete_video_spec_witness :
    (delete_video (fun _ => DeleteResp.status 204) "/videos/1").1 = true :=
  (delete_video_spec (fun _ => DeleteResp.status 204) "/videos/1").1.2 rfl

/-- Every delete_video call emits exactly one DELETE request event,
carrying the outcome of the call. -/
theorem delete_video_events (deleteResp : String → DeleteResp)
    (video_uri : String) :
    (delete_video deleteResp video_uri).2 =
      [Event.deleteCall video_uri (delete_video deleteResp video_uri).1] := by
  cases h : deleteResp video_uri with
  | status code => by_cases hc : code = 204 <;> simp [delete_video, h, hc]
  | exn => simp [delete_video, h]

/-- Branch equation: a missing created_time key raises and is caught. -/
theorem processItem_missing_created (env : Env) (fs : FS) (video : Video)
    (hct : video.created_time = none) :
    process_item env fs video = ⟨0, 1, fs, []⟩ := by
  simp [process_item, hct]

/-- Branch equation: a malformed created_time raises and is caught. -/
theorem processItem_bad_timestamp (env : Env) (fs : FS) (video : Video)
    (ts : String) (hct : video.created_time = some ts)
    (hp : parse_iso_year ts = none) :
    process_item env fs video = ⟨0, 1, fs, []⟩ := by
  simp [process_item, hct, hp]

/-- Branch equation: an out-of-year item is skipped silently. -/
theorem processItem_skip (env : Env) (fs : FS) (video : Video)
    (ts : String) (y : Nat) (hct : video.created_time = some ts)
    (hp : parse_iso_year ts = some y) (hy : y ≠ env.year) :
    process_item env fs video = ⟨0, 0, fs, []⟩ := by
  simp [process_item, hct, hp, hy]

/-- Branch equation: a missing uri key on an eligible-year item raises and
is caught. -/
theorem processItem_missing_uri (env : Env) (fs : FS) (video : Video)
    (ts : String) (hct : video.created_time = some ts)
    (hp : parse_iso_year ts = some env.year) (hu : video.uri = none) :
    process_item env fs video = ⟨0, 1, fs, []⟩ := by
  simp [process_item, hct, hp, hu]

/-- Branch equation: a missing download link increments errors. -/
theorem processItem_missing_link (env : Env) (fs : FS) (video : Video)
    (ts u : String) (hct : video.created_time = some ts)
    (hp : parse_iso_year ts = some env.year) (hu : video.uri = some u)
    (hl : get_download_link video = none) :
    process_item env fs video = ⟨0, 1, fs, []⟩ := by
  simp [process_item, hct, hp, hu, hl]

/-- Branch equation: a present empty-string download link is falsy on
source line 150 and increments errors exactly like a missing link. -/
theorem processItem_empty_link (env : Env) (fs : FS) (video : Video)
    (ts u : String) (hct : video.created_time = some ts)
    (hp : parse_iso_year ts = some env.year) (hu : video.uri = some u)
    (hl : get_download_link video = some "") :
    process_item env fs video = ⟨0, 1, fs, []⟩ := by
  simp [process_item, hct, hp, hu, hl]

/-- Branch equation: a failed download of a usable link increments errors,
takes the filesystem of the failed call, and emits only the failed
download event. -/
theorem processItem_download_fail (env : Env) (fs : FS) (video : Video)
    (ts u l : String) (hct : video.created_time = some ts)
    (hp : parse_iso_year ts = some env.year) (hu : video.uri = some u)
    (hl : get_download_link video = some l) (hne : l ≠ "")
    (hok : (download_video env.download_dir env.net fs l
      (sanitize_name video.name)).ok = false) :
    process_item env fs video
      = ⟨0, 1,
          (download_video env.download_dir env.net fs l
            (sanitize_name video.name)).fs,
          [Event.downloadCall l (sanitize_name video.name) false
            (download_video env.download_dir env.net fs l
              (sanitize_name video.name)).transferred]⟩ := by
  simp [process_item, hct, hp, hu, hl, hne, hok]

/-- Branch equation: download success then delete success increments
processed and emits the download event followed by the delete event. -/
theorem processItem_delete_ok (env : Env) (fs : FS) (video : Video)
    (ts u l : String) (hct : video.created_time = some ts)
    (hp : parse_iso_year ts = some env.year) (hu : video.uri = some u)
    (hl : get_download_link video = some l) (hne : l ≠ "")
    (hok : (download_video env.download_dir env.net fs l
      (sanitize_name video.name)).ok = true)
    (hdel : (delete_video env.deleteResp u).1 = true) :
    process_item env fs video
      = ⟨1, 0,
          (download_video env.download_dir env.net fs l
            (sanitize_name video.name)).fs,
          [Event.downloadCall l (sanitize_name video.name) true
            (download_video env.download_dir env.net fs l
              (sanitize_name video.name)).transferred,
           Event.deleteCall u true]⟩ := by
  simp [process_item, hct, hp, hu, hl, hne, hok, delete_video_events, hdel]

/-- Branch equation: download success then delete failure increments
errors and emits the download event followed by the failed delete event. -/
theorem processItem_delete_fail (env : Env) (fs : FS) (video : Video)
    (ts u l : String) (hct : video.created_time = some ts)
    (hp : parse_iso_year ts = some env.year) (hu : video.uri = some u)
    (hl : get_download_link video = some l) (hne : l ≠ "")
    (hok : (download_video env.download_dir env.net fs l
      (sanitize_name video.name)).ok = true)
    (hdel : (delete_video env.deleteResp u).1 = false) :
    process_item env fs video
      = ⟨0, 1,
          (download_video env.download_dir env.net fs l
            (sanitize_name video.name)).fs,
          [Event.downloadCall l (sanitize_name video.name) true
            (download_video env.download_dir env.net fs l
              (sanitize_name video.name)).transferred,
           Event.deleteCall u false]⟩ := by
  simp [process_item, hct, hp, hu, hl, hne, hok, delete_video_events, hdel]

/-- Master case analysis of process_item: every item lands in exactly one
of five outcome shapes: silent out-of-year skip, an error with no events
(exception or missing link), a failed download, a full success, or a
download success with a failed delete. -/
theorem processItem_master (env : Env) (fs : FS) (video : Video) :
    (process_item env fs video = ⟨0, 0, fs, []⟩ ∧
      ∃ ts y, video.created_time = some ts ∧ parse_iso_year ts = some y ∧
        y ≠ env.year) ∨
    process_item env fs video = ⟨0, 1, fs, []⟩ ∨
    (∃ l nm t fs1, process_item env fs video
      = ⟨0, 1, fs1, [Event.downloadCall l nm false t]⟩) ∨
    (∃ l nm t u fs1, process_item env fs video
      = ⟨1, 0, fs1,
          [Event.downloadCall l nm true t, Event.deleteCall u true]⟩) ∨
    (∃ l nm t u fs1, process_item env fs video
      = ⟨0, 1, fs1,
          [Event.downloadCall l nm true t, Event.deleteCall u false]⟩) := by
  cases hct : video.created_time with
  | none =>
    right; left; exact processItem_missing_created env fs video hct
  | some ts =>
    cases hp : parse_iso_year ts with
    | none =>
      right; left; exact processItem_bad_timestamp env fs video ts hct hp
    | some y =>
      by_cases hy : y = env.year
      · subst hy
        cases hu : video.uri with
        | none =>
          right; left; exact processItem_missing_uri env fs video ts hct hp hu
        | some u =>
          cases hl : get_download_link video with
          | none =>
            right; left
            exact processItem_missing_link env fs video ts u hct hp hu hl
          | some l =>
            by_cases hle : l = ""
            · subst hle
              right; left
              exact processItem_empty_link env fs video ts u hct hp hu hl
            · cases hok : (download_video env.download_dir env.net fs l
                (sanitize_name video.name)).ok with
              | false =>
                right; right; left
                exact ⟨l, sanitize_name video.name, _, _,
                  processItem_download_fail env fs video ts u l hct hp hu hl
                    hle hok⟩
              | true =>
                cases hdel : (delete_video env.deleteResp u).1 with
                | true =>
                  right; right; right; left
                  exact ⟨l, sanitize_name video.name, _, u, _,
                    processItem_delete_ok env fs video ts u l hct hp hu hl
                      hle hok hdel⟩
                | false =>
                  right; right; right; right
                  exact ⟨l, sanitize_name video.name, _, u, _,
                    processItem_delete_fail env fs video ts u l hct hp hu hl
                      hle hok hdel⟩
      · left
        exact ⟨processItem_skip env fs video ts y hct hp hy, ts, y, rfl, hp, hy⟩

/-- C1: on the event trace of any single item, a delete is attempted if
and only if the download call for that item returned success, and every
delete event is preceded by a successful download event: deletion is never
attempted before or without a successful download return. -/
theorem delete_iff_download_success (env : Env) (fs : FS) (video : Video) :
    ((process_item env fs video).events.any is_delete_event
      = (process_item env fs video).events.any is_download_success) ∧
    (∀ i e, (process_item env fs video).events.get? i = some e →
      is_delete_event e = true →
      ∃ j e2, j < i ∧
        (process_item env fs video).events.get? j = some e2 ∧
        is_download_success e2 = true) := by
  rcases processItem_master env fs video with ⟨heq, -⟩ | heq |
    ⟨l, nm, t, fs1, heq⟩ | ⟨l, nm, t, u, fs1, heq⟩ | ⟨l, nm, t, u, fs1, heq⟩ <;>
    rw [heq] <;> constructor
  · rfl
  · intro i e h hd
    simp [List.get?] at h
  · simp [is_delete_event, is_download_success]
  · intro i e h hd
    simp [List.get?] at h
  · simp [is_delete_event, is_download_success]
  · intro i e h hd
    rcases i with - | i
    · simp only [List.get?] at h
      cases h
      simp [is_delete_event] at hd
    · simp [List.get?] at h
  · simp [is_delete_event, is_download_success]
  · intro i e h hd
    rcases i with - | - | i
    · simp only [List.get?] at h
      cases h
      simp [is_delete_event] at hd
    · exact ⟨0, Event.downloadCall l nm true t, by omega, rfl, rfl⟩
    · simp [List.get?] at h
  · simp [is_delete_event, is_download_success]
  · intro i e h hd
    rcases i with - | - | i
    · simp only [List.get?] at h
      cases h
      simp [is_delete_event] at hd
    · exact ⟨0, Event.downloadCall l nm true t, by omega, rfl, rfl⟩
    · simp [List.get?] at h

/-- Witness for C1 at a concrete fully successful item. -/
theorem delete_iff_download_success_witness :
    ((process_item
        ⟨"downloads", 2022, fun _ => some [], fun _ => NetResult.ok 7,
          fun _ => DeleteResp.status 204⟩ []
        ⟨some "/videos/1", some "A", some "2022-01-02T03:04:05Z",
          some [some "L1"]⟩).events.any is_delete_event
      = (process_item
        ⟨"downloads", 2022, fun _ => some [], fun _ => NetResult.ok 7,
          fun _ => DeleteResp.status 204⟩ []
        ⟨some "/videos/1", some "A", some "2022-01-02T03:04:05Z",
          some [some "L1"]⟩).events.any is_download_success) :=
  (delete_iff_download_success
    ⟨"downloads", 2022, fun _ => some [], fun _ => NetResult.ok 7,
      fun _ => DeleteResp.status 204⟩ []
    ⟨some "/videos/1", some "A", some "2022-01-02T03:04:05Z",
      some [some "L1"]⟩).1

/-- C4: a failed listing and an empty page stop the pagination loop in the
same way, with the state otherwise unchanged and no further page
processed; only the failed listing leaves an error-log event. -/
theorem listing_failure_and_empty_page_stop_loop (env : Env)
    (fuel page : Nat) (s : RunState) :
    (env.pages page = none →
      process_videos_loop env (fuel + 1) page s
        = { s with events := s.events ++ [Event.logListError page] }) ∧
    (env.pages page = some [] →
      process_videos_loop env (fuel + 1) page s = s) := by
  constructor <;> intro h <;> simp [process_videos_loop, h]

/-- Witness for C4: a run whose page 1 listing fails stops with only the
error-log event, and a run whose page 1 listing is empty stops clean. -/
theorem listing_failure_and_empty_page_stop_loop_witness :
    process_videos_loop
      ⟨"d", 2022, (fun p => if p = 1 then none else some []),
        fun _ => NetResult.connFail, fun _ => DeleteResp.exn⟩ 1 1
      ⟨0, 0, [], []⟩
      = ⟨0, 0, [], [Event.logListError 1]⟩ ∧
    process_videos_loop
      ⟨"d", 2022, (fun p => if p = 1 then none else some []),
        fun _ => NetResult.connFail, fun _ => DeleteResp.exn⟩ 1 2
      ⟨0, 0, [], []⟩
      = ⟨0, 0, [], []⟩ :=
  ⟨(listing_failure_and_empty_page_stop_loop
      ⟨"d", 2022, (fun p => if p = 1 then none else some []),
        fun _ => NetResult.connFail, fun _ => DeleteResp.exn⟩ 0 1
      ⟨0, 0, [], []⟩).1 rfl,
    (listing_failure_and_empty_page_stop_loop
      ⟨"d", 2022, (fun p => if p = 1 then none else some []),
        fun _ => NetResult.connFail, fun _ => DeleteResp.exn⟩ 0 2
      ⟨0, 0, [], []⟩).2 rfl⟩

/-- Counterexample for C6: an empty display name present in the listing
yields an empty filename stem, not the default placeholder; the default
applies only when the name key is absent. -/
theorem empty_name_not_placeholder :
    sanitize_name (some "") = "" ∧ sanitize_name (some "") ≠ "unnamed" := by
  constructor
  · rfl
  · decide

/-- C6 amended: the stem is derived deterministically from the display
name with path separators replaced by underscores (a/b yields a_b); an
absent display name yields the placeholder stem unnamed, while a present
empty display name yields an empty stem; the target path is the download
directory, a slash, the stem and the extension. -/
theorem name_sanitization_amended (download_dir : String)
    (name : Option String) :
    sanitize_name (some "a/b") = "a_b" ∧
    sanitize_name none = "unnamed" ∧
    sanitize_name (some "") = "" ∧
    target_path download_dir (sanitize_name name)
      = download_dir ++ "/" ++ sanitize_name name ++ ".mp4" := by
  exact ⟨by decide, by decide, rfl, rfl⟩

/-- C9: any exception while processing a single item (missing created_time
key, malformed timestamp, missing uri key) is caught at item level with
errors incremented by one and nothing else changed, the page loop then
continues with the remaining items of the page, and a non-empty page is
followed by the next page of the run. -/
theorem item_failure_isolation (env : Env) (fs : FS) (video : Video)
    (rest : List Video) (s : RunState) :
    (video.created_time = none →
      process_item env fs video = ⟨0, 1, fs, []⟩) ∧
    (∀ ts, video.created_time = some ts → parse_iso_year ts = none →
      process_item env fs video = ⟨0, 1, fs, []⟩) ∧
    (∀ ts, video.created_time = some ts →
      parse_iso_year ts = some env.year → video.uri = none →
      process_item env fs video = ⟨0, 1, fs, []⟩) ∧
    (process_page env s (video :: rest) =
      process_page env
        ⟨s.processed + (process_item env s.fs video).dProcessed,
          s.errors + (process_item env s.fs video).dErrors,
          (process_item env s.fs video).fs,
          s.events ++ (process_item env s.fs video).events⟩ rest) ∧
    (∀ fuel page v vs, env.pages page = some (v :: vs) →
      process_videos_loop env (fuel + 1) page s =
        process_videos_loop env fuel (page + 1)
          (process_page env s (v :: vs))) := by
  refine ⟨processItem_missing_created env fs video,
    fun ts hct hp => processItem_bad_timestamp env fs video ts hct hp,
    fun ts hct hp hu => processItem_missing_uri env fs video ts hct hp hu,
    rfl, ?_⟩
  intro fuel page v vs h
  simp [process_videos_loop, h]

/-- C5: the counters change exactly as specified and in no other way: an
out-of-year item changes neither counter; a missing download link (absent,
or empty and hence falsy on source line 150) adds one error; a failed
download of a usable link adds one error and no delete is attempted; a
download success followed by a delete success adds one to processed; a
download success followed by a delete failure adds one error and leaves
the local file in place; and every examined item that is not an
out-of-year skip changes exactly one counter by exactly one. -/
theorem counter_update_cases (env : Env) (fs : FS) (video : Video) :
    (∀ ts y, video.created_time = some ts → parse_iso_year ts = some y →
      y ≠ env.year → process_item env fs video = ⟨0, 0, fs, []⟩) ∧
    (∀ ts, video.created_time = some ts →
      parse_iso_year ts = some env.year → video.uri.isSome = true →
      (get_download_link video = none ∨
        get_download_link video = some "") →
      process_item env fs video = ⟨0, 1, fs, []⟩) ∧
    (∀ ts l, video.created_time = some ts →
      parse_iso_year ts = some env.year → video.uri.isSome = true →
      get_download_link video = some l → l ≠ "" →
      (download_video env.download_dir env.net fs l
        (sanitize_name video.name)).ok = false →
      (process_item env fs video).dProcessed = 0 ∧
      (process_item env fs video).dErrors = 1 ∧
      (process_item env fs video).events.any is_delete_event = false) ∧
    (∀ ts u l, video.created_time = some ts →
      parse_iso_year ts = some env.year → video.uri = some u →
      get_download_link video = some l → l ≠ "" →
      (download_video env.download_dir env.net fs l
        (sanitize_name video.name)).ok = true →
      (delete_video env.deleteResp u).1 = true →
      (process_item env fs video).dProcessed = 1 ∧
      (process_item env fs video).dErrors = 0) ∧
    (∀ ts u l, video.created_time = some ts →
      parse_iso_year ts = some env.year → video.uri = some u →
      get_download_link video = some l → l ≠ "" →
      (download_video env.download_dir env.net fs l
        (sanitize_name video.name)).ok = true →
      (delete_video env.deleteResp u).1 = false →
      (process_item env fs video).dProcessed = 0 ∧
      (process_item env fs video).dErrors = 1 ∧
      fsExists (process_item env fs video).fs
        (target_path env.download_dir (sanitize_name video.name)) = true) ∧
    (((process_item env fs video).dProcessed = 0 ∧
        (process_item env fs video).dErrors = 0 ∧
        ∃ ts y, video.created_time = some ts ∧ parse_iso_year ts = some y ∧
          y ≠ env.year) ∨
      ((process_item env fs video).dProcessed = 1 ∧
        (process_item env fs video).dErrors = 0) ∨
      ((process_item env fs video).dProcessed = 0 ∧
        (process_item env fs video).dErrors = 1)) := by
  refine ⟨fun ts y hct hp hy => processItem_skip env fs video ts y hct hp hy,
    ?_, ?_, ?_, ?_, ?_⟩
  · intro ts hct hp hu hl
    rw [Option.isSome_iff_exists] at hu
    obtain ⟨u, hu⟩ := hu
    rcases hl with hl | hl
    · exact processItem_missing_link env fs video ts u hct hp hu hl
    · exact processItem_empty_link env fs video ts u hct hp hu hl
  · intro ts l hct hp hu hl hne hok
    rw [Option.isSome_iff_exists] at hu
    obtain ⟨u, hu⟩ := hu
    rw [processItem_download_fail env fs video ts u l hct hp hu hl hne hok]
    simp [is_delete_event]
  · intro ts u l hct hp hu hl hne hok hdel
    rw [processItem_delete_ok env fs video ts u l hct hp hu hl hne hok hdel]
    exact ⟨rfl, rfl⟩
  · intro ts u l hct hp hu hl hne hok hdel
    rw [processItem_delete_fail env fs video ts u l hct hp hu hl hne hok
      hdel]
    exact ⟨rfl, rfl,
      download_ok_exists env.download_dir env.net fs l
        (sanitize_name video.name) hok⟩
  · rcases processItem_master env fs video with ⟨heq, hex⟩ | heq |
      ⟨l, nm, t, fs1, heq⟩ | ⟨l, nm, t, u, fs1, heq⟩ |
      ⟨l, nm, t, u, fs1, heq⟩
    · left; rw [heq]; exact ⟨rfl, rfl, hex⟩
    · right; right; rw [heq]; exact ⟨rfl, rfl⟩
    · right; right; rw [heq]; exact ⟨rfl, rfl⟩
    · right; left; rw [heq]; exact ⟨rfl, rfl⟩
    · right; right; rw [heq]; exact ⟨rfl, rfl⟩

/-- Witness for C5 at a concrete out-of-year item: neither counter
changes. -/
theorem counter_update_cases_witness :
    process_item
      ⟨"downloads", 2022, fun _ => some [], fun _ => NetResult.ok 7,
        fun _ => DeleteResp.status 204⟩ []
      ⟨some "/videos/1", some "A", some "2021-05-05T00:00:00Z",
        some [some "L1"]⟩
      = ⟨0, 0, [], []⟩ :=
  (counter_update_cases
    ⟨"downloads", 2022, fun _ => some [], fun _ => NetResult.ok 7,
      fun _ => DeleteResp.status 204⟩ []
    ⟨some "/videos/1", some "A", some "2021-05-05T00:00:00Z",
      some [some "L1"]⟩).1
    "2021-05-05T00:00:00Z" 2021 rfl (by decide) (by decide)

/-- C8: year eligibility is decided by the parsed year of the Z-suffixed
ISO-8601 creation timestamp equalling the target year: the last second of
2022 parses to year 2022 and is eligible for target year 2022 (the item is
examined, so exactly one counter changes), while the first second of 2023
parses to year 2023 and is skipped silently. -/
theorem year_filter_boundary :
    parse_iso_year "2022-12-31T23:59:59Z" = some 2022 ∧
    parse_iso_year "2023-01-01T00:00:00Z" = some 2023 ∧
    (∀ (env : Env) (fs : FS) (video : Video), env.year = 2022 →
      video.created_time = some "2023-01-01T00:00:00Z" →
      process_item env fs video = ⟨0, 0, fs, []⟩) ∧
    (∀ (env : Env) (fs : FS) (video : Video), env.year = 2022 →
      video.created_time = some "2022-12-31T23:59:59Z" →
      (process_item env fs video).dProcessed
        + (process_item env fs video).dErrors = 1) := by
  refine ⟨by decide, by decide, ?_, ?_⟩
  · intro env fs video hy hct
    refine processItem_skip env fs video _ 2023 hct (by decide) ?_
    rw [hy]; decide
  · intro env fs video hy hct
    rcases processItem_master env fs video with ⟨heq, ts, y, hct2, hp2, hy2⟩
      | heq | ⟨l, nm, t, fs1, heq⟩ | ⟨l, nm, t, u, fs1, heq⟩
      | ⟨l, nm, t, u, fs1, heq⟩
    · rw [hct] at hct2
      cases hct2
      rw [show parse_iso_year "2022-12-31T23:59:59Z" = some 2022 by decide]
        at hp2
      cases hp2
      exact absurd hy.symm hy2
    · rw [heq]; rfl
    · rw [heq]; rfl
    · rw [heq]; rfl
    · rw [heq]; rfl

/-- Witness for C8 at a concrete item created in the first second of 2023,
silently skipped for target year 2022. -/
theorem year_filter_boundary_witness :
    process_item
      ⟨"downloads", 2022, fun _ => some [], fun _ => NetResult.connFail,
        fun _ => DeleteResp.exn⟩ []
      ⟨some "/videos/1", some "A", some "2023-01-01T00:00:00Z",
        some [some "L1"]⟩
      = ⟨0, 0, [], []⟩ :=
  year_filter_boundary.2.2.1
    ⟨"downloads", 2022, fun _ => some [], fun _ => NetResult.connFail,
      fun _ => DeleteResp.exn⟩ []
    ⟨some "/videos/1", some "A", some "2023-01-01T00:00:00Z",
      some [some "L1"]⟩ rfl rfl

/-- C10: the target path of a download is a function of the download
directory and the sanitized name only, so a download touches no other
path regardless of the item identifier or link; and when two eligible
items with equal sanitized names and usable (non-empty) links are
processed in one run with the first download and both deletes succeeding,
the second download succeeds by the skip rule without a transfer, both
remote items are deleted, and exactly one local file exists afterwards,
holding the first item content. -/
theorem name_collision_aliasing (env : Env) (v1 v2 : Video)
    (ts1 ts2 u1 u2 l1 l2 nm : String) (c : Nat) (fs0 : FS) :
    (∀ (net : String → NetResult) (fs : FS) (link vn p : String),
      p ≠ target_path env.download_dir vn →
      fsLookup (download_video env.download_dir net fs link vn).fs p
        = fsLookup fs p) ∧
    (v1.created_time = some ts1 → parse_iso_year ts1 = some env.year →
      v2.created_time = some ts2 → parse_iso_year ts2 = some env.year →
      v1.uri = some u1 → v2.uri = some u2 →
      get_download_link v1 = some l1 → get_download_link v2 = some l2 →
      l1 ≠ "" → l2 ≠ "" →
      sanitize_name v1.name = nm → sanitize_name v2.name = nm →
      env.net l1 = NetResult.ok c →
      env.deleteResp u1 = DeleteResp.status 204 →
      env.deleteResp u2 = DeleteResp.status 204 →
      fsExists fs0 (target_path env.download_dir nm) = false →
      process_page env ⟨0, 0, fs0, []⟩ [v1, v2]
        = ⟨2, 0, fsWrite fs0 (target_path env.download_dir nm) c,
            [Event.downloadCall l1 nm true true, Event.deleteCall u1 true,
             Event.downloadCall l2 nm true false,
             Event.deleteCall u2 true]⟩) := by
  constructor
  · intro net fs link vn p hp
    exact download_frame env.download_dir net fs link vn p hp
  · intro hct1 hp1 hct2 hp2 hu1 hu2 hl1 hl2 hne1 hne2 hnm1 hnm2 hnet hd1
      hd2 hfs
    have hdl1 : download_video env.download_dir env.net fs0 l1
        (sanitize_name v1.name)
        = ⟨true, fsWrite fs0 (target_path env.download_dir nm) c, true⟩ := by
      rw [download_video, hnm1]
      simp [hfs, hnet]
    have hitem1 : process_item env fs0 v1
        = ⟨1, 0, fsWrite fs0 (target_path env.download_dir nm) c,
            [Event.downloadCall l1 nm true true,
             Event.deleteCall u1 true]⟩ := by
      rw [processItem_delete_ok env fs0 v1 ts1 u1 l1 hct1 hp1 hu1 hl1 hne1
        (by rw [hdl1]) (by simp [delete_video, hd1]), hdl1, hnm1]
    have hdl2 : download_video env.download_dir env.net
        (fsWrite fs0 (target_path env.download_dir nm) c) l2
        (sanitize_name v2.name)
        = ⟨true, fsWrite fs0 (target_path env.download_dir nm) c, false⟩ := by
      rw [download_video, hnm2]
      simp [fsExists_fsWrite_self]
    have hitem2 : process_item env
        (fsWrite fs0 (target_path env.download_dir nm) c) v2
        = ⟨1, 0, fsWrite fs0 (target_path env.download_dir nm) c,
            [Event.downloadCall l2 nm true false,
             Event.deleteCall u2 true]⟩ := by
      rw [processItem_delete_ok env _ v2 ts2 u2 l2 hct2 hp2 hu2 hl2 hne2
        (by rw [hdl2]) (by simp [delete_video, hd2]), hdl2, hnm2]
    simp only [process_page, hitem1, hitem2]
    simp

/-- Witness for C10 at two concrete items both named A: one local file,
two remote deletions. -/
theorem name_collision_aliasing_witness :
    process_page
      ⟨"downloads", 2022, fun _ => some [], fun _ => NetResult.ok 7,
        fun _ => DeleteResp.status 204⟩
      ⟨0, 0, [], []⟩
      [⟨some "/videos/1", some "A", some "2022-01-02T03:04:05Z",
          some [some "L1"]⟩,
        ⟨some "/videos/2", some "A", some "2022-06-07T08:09:10Z",
          some [some "L2"]⟩]
      = ⟨2, 0, fsWrite [] (target_path "downloads" "A") 7,
          [Event.downloadCall "L1" "A" true true,
           Event.deleteCall "/videos/1" true,
           Event.downloadCall "L2" "A" true false,
           Event.deleteCall "/videos/2" true]⟩ :=
  (name_collision_aliasing
    ⟨"downloads", 2022, fun _ => some [], fun _ => NetResult.ok 7,
      fun _ => DeleteResp.status 204⟩
    ⟨some "/videos/1", some "A", some "2022-01-02T03:04:05Z",
      some [some "L1"]⟩
    ⟨some "/videos/2", some "A", some "2022-06-07T08:09:10Z",
      some [some "L2"]⟩
    "2022-01-02T03:04:05Z" "2022-06-07T08:09:10Z" "/videos/1" "/videos/2"
    "L1" "L2" "A" 7 []).2
    rfl (by decide) rfl (by decide) rfl rfl rfl rfl (by decide) (by decide)
    (by decide) (by decide) rfl rfl rfl (by decide)

/-- Witness for C9 at a concrete malformed timestamp. -/
theorem item_failure_isolation_witness :
    process_item
      ⟨"downloads", 2022, fun _ => some [], fun _ => NetResult.ok 7,
        fun _ => DeleteResp.status 204⟩ []
      ⟨some "/videos/1", some "A", some "not-a-date", some [some "L1"]⟩
      = ⟨0, 1, [], []⟩ :=
  (item_failure_isolation
    ⟨"downloads", 2022, fun _ => some [], fun _ => NetResult.ok 7,
      fun _ => DeleteResp.status 204⟩ []
    ⟨some "/videos/1", some "A", some "not-a-date", some [some "L1"]⟩
    [] ⟨0, 0, [], []⟩).2.1 "not-a-date" rfl (by decide)

end VimeoCleaner
